import Mathlib

/- Verification of the Khepera IV homeostasis model (src/model.c) against its
   specification.  The C program is shallowly embedded below.

   Modelling conventions:
   * C float and double arithmetic is idealized as exact arithmetic over the
     rationals; decimal literals denote exact rationals.
   * M_PI denotes the exact value of the IEEE-754 double constant M_PI.
   * C int arithmetic is modelled by the integers, with division on int
     modelled by truncating division (Int.tdiv), as in C.
   * The abs function from stdlib.h takes an int argument, so a float
     argument is first converted to int (truncated toward zero);
     float_to_int models that conversion.
   * The local accumulator mean in get_mean_normalized and
     get_mean_normalized_f is read before being initialized in the C source;
     it is modelled as starting at 0, the common behavior for a fresh stack
     frame in this program.
   * Hardware access, printing and sleeping are modelled as no-ops; motor and
     LED feedback commands are recorded in an event trace.  The damage
     animation thread is modelled through the guard flag
     _secure_led_animation: spawning the animation records one event and
     raises the guard.  The animation runs for many control periods, so over
     the horizons considered here the guard stays raised once set.
-/

set_option allowUnsafeReducibility true

attribute [semireducible] Rat.mul Rat.add Rat.sub Rat.inv Rat.ofScientific

/-- MAX_DIST macro from model.c. -/
def MAX_DIST : ℤ := 500

/-- MIN_DIST macro from model.c. -/
def MIN_DIST : ℤ := 80

/-- TIME macro from model.c (model update period). -/
def TIME : ℤ := 100000

/-- Exact value of the IEEE-754 double constant M_PI, 884279719003555 / 2^48. -/
def M_PI : ℚ := 884279719003555 / 281474976710656

/-- Conversion of a C float value to int: truncation toward zero. -/
def float_to_int (q : ℚ) : ℤ := if 0 ≤ q then ⌊q⌋ else ⌈q⌉

/-- Externally visible commands emitted by the program. -/
inductive Event where
  | damageAnim : Event
  | moveCmd : ℚ → ℚ → Event
  | stopCmd : Event
  | deathAnim : Event
  deriving DecidableEq, Repr

/-- The global mutable state of model.c. -/
structure MState where
  var_energy : ℚ
  var_tegument : ℚ
  var_integrity : ℚ
  def_energy : ℚ
  def_tegument : ℚ
  def_integrity : ℚ
  cue_energy : ℚ
  cue_tegument : ℚ
  cue_integrity : ℚ
  mot_energy : ℚ
  mot_tegument : ℚ
  mot_integrity : ℚ
  left_speed : ℚ
  right_speed : ℚ
  sensors : List ℤ
  prev_sensors : List ℤ
  speed : List ℚ
  circ_speed : List ℚ
  secure_led : Bool
  events : List Event
  deriving DecidableEq, Repr

/-- Initial values of the globals of model.c at process start. -/
def init : MState where
  var_energy := 1
  var_tegument := 1
  var_integrity := 1
  def_energy := 1
  def_tegument := 1
  def_integrity := 1
  cue_energy := 1
  cue_tegument := 1
  cue_integrity := 1
  mot_energy := 1
  mot_tegument := 1
  mot_integrity := 1
  left_speed := 0
  right_speed := 0
  sensors := List.replicate 8 0
  prev_sensors := List.replicate 8 0
  speed := List.replicate 8 0
  circ_speed := List.replicate 7 0
  secure_led := false
  events := []

/-- Per-channel store of get_sensors: saturate above MAX_DIST, zero below
MIN_DIST, otherwise shift the offset from MIN_DIST right by one. -/
def scale_sensor (raw : ℕ) : ℤ :=
  if (raw : ℤ) > MAX_DIST then MAX_DIST
  else if (raw : ℤ) < MIN_DIST then 0
  else ((raw : ℤ) - MIN_DIST) / 2

/-- The sensor mapping as worded by the specification: clamp into
[MIN_DIST, MAX_DIST], subtract MIN_DIST and halve when raw is at least
MIN_DIST, else 0. -/
def scale_sensor_spec (raw : ℕ) : ℤ :=
  if (raw : ℤ) ≥ MIN_DIST then (min (max (raw : ℤ) MIN_DIST) MAX_DIST - MIN_DIST) / 2
  else 0

/-- get_sensors: read the ir sensors (the raw frame is supplied by the
environment) and store the scaled values. -/
def get_sensors (raw : List ℕ) (s : MState) : MState :=
  { s with sensors := raw.map scale_sensor }

/-- get_sensors_history: copy the current frame into the previous frame. -/
def get_sensors_history (s : MState) : MState :=
  { s with prev_sensors := s.sensors }

/-- get_mean_normalized from model.c, on an int table. -/
def get_mean_normalized (table : List ℤ) (size : ℕ) (mn mx : ℤ) : ℚ :=
  ((((table.take size).sum : ℤ) : ℚ) / (size : ℚ) - (mn : ℚ)) / ((mx : ℚ) - (mn : ℚ))

/-- get_mean_normalized_f from model.c, on a float table. -/
def get_mean_normalized_f (table : List ℚ) (size : ℕ) (mn mx : ℚ) : ℚ :=
  ((table.take size).sum / (size : ℚ) - mn) / (mx - mn)

/-- compute_deficit from model.c. -/
def compute_deficit (s : MState) : MState :=
  { s with
    def_energy := 1 - s.var_energy
    def_tegument := 1 - s.var_tegument
    def_integrity := 1 - s.var_integrity }

/-- compute_cues from model.c. -/
def compute_cues (s : MState) : MState :=
  { s with
    cue_energy := 0.06
    cue_tegument := 0.055
    cue_integrity := get_mean_normalized s.sensors 8 MIN_DIST MAX_DIST }

/-- compute_motivations from model.c. -/
def compute_motivations (s : MState) : MState :=
  { s with
    mot_energy := s.def_energy + s.def_energy * s.cue_energy
    mot_tegument := s.def_tegument + s.def_tegument * s.cue_tegument
    mot_integrity := s.def_integrity + s.def_integrity * s.cue_integrity }

/-- The loopstart = 0 body of update_vars: recompute deficits, cues and
motivations, in that order. -/
def update_vars_zero (s : MState) : MState :=
  compute_motivations (compute_cues (compute_deficit s))

/-- decrease_physoligical_variables from model.c (sic). -/
def decrease_physoligical_variables (s : MState) : MState :=
  { s with
    var_energy := s.var_energy - 0.004
    var_tegument := s.var_tegument - 0.0015 }

/-- The state reached inside induce_damage after the integrity decrement and
the update_vars(0) call, before the animation guard is consulted. -/
def induce_damage_update (level : ℚ) (s : MState) : MState :=
  update_vars_zero { s with var_integrity := s.var_integrity - level * 0.01 }

/-- induce_damage from model.c: decrease the integrity variable by
level * 0.01, run update_vars(0), then spawn the damage animation when the
guard is down. -/
def induce_damage (level : ℚ) (s : MState) : MState :=
  if (induce_damage_update level s).secure_led = false then
    { induce_damage_update level s with
      secure_led := true
      events := (induce_damage_update level s).events ++ [Event.damageAnim] }
  else induce_damage_update level s

/-- First loop of circ_damage: compare sensor i with history of sensor i-1
and set the circular speed slot on a small difference. -/
def circ_first_step (s : MState) (i : ℕ) : MState :=
  if ((s.sensors.getD i 0 - s.prev_sensors.getD (i - 1) 0).natAbs : ℚ)
      < 0.5 * (s.sensors.getD i 0 : ℚ) then
    { s with circ_speed := s.circ_speed.set i (M_PI * 6 / (TIME : ℚ)) }
  else s

/-- Second loop of circ_damage: double adjacent circular speed slots when
they are close; the abs argument is a float, truncated to int by the call. -/
def circ_second_step (s : MState) (i : ℕ) : MState :=
  if ((float_to_int (s.circ_speed.getD i 0 - s.circ_speed.getD (i - 1) 0)).natAbs : ℚ) < 0.5 * s.circ_speed.getD i 0 then
    { s with circ_speed := (s.circ_speed.set (i - 1) (s.circ_speed.getD (i - 1) 0 * 2)).set i (s.circ_speed.getD i 0 * 2) }
  else s

/-- Third loop of circ_damage: induce damage from every circular speed slot. -/
def circ_induce_step (s : MState) (i : ℕ) : MState :=
  induce_damage (s.circ_speed.getD i 0) s

/-- circ_damage from model.c; it always returns 0. -/
def circ_damage (s : MState) : MState × ℤ :=
  (List.foldl circ_induce_step
    (List.foldl circ_second_step
      (List.foldl circ_first_step s [1, 2, 3, 4, 5, 6]) [1, 2, 3, 4, 5, 6])
    [0, 1, 2, 3, 4, 5, 6], 0)

/-- Per-channel loop of speed_damage: on a difference above five percent of
MAX_DIST - MIN_DIST, average the old speed with diff / TIME computed in int
arithmetic; otherwise reset the channel speed to zero. -/
def speed_damage_step (s : MState) (i : ℕ) : MState :=
  if 0.05 * ((MAX_DIST - MIN_DIST : ℤ) : ℚ) < ((s.sensors.getD i 0 - s.prev_sensors.getD i 0).natAbs : ℚ) then
    { s with speed := s.speed.set i ((s.speed.getD i 0 + ((Int.tdiv (s.sensors.getD i 0 - s.prev_sensors.getD i 0) TIME : ℤ) : ℚ)) / 2) }
  else
    { s with speed := s.speed.set i 0 }

/-- The speed table after the per-channel loop of speed_damage. -/
def speed_update (s : MState) : MState :=
  List.foldl speed_damage_step s [0, 1, 2, 3, 4, 5, 6, 7]

/-- The normalized mean of the speed table computed by speed_damage; the
upper bound MAX_DIST / TIME is computed in int arithmetic. -/
def speed_mean (s : MState) : ℚ :=
  get_mean_normalized_f s.speed 8 0 ((Int.tdiv MAX_DIST TIME : ℤ) : ℚ)

/-- Damage-inducing loop of speed_damage. -/
def speed_induce_step (s : MState) (i : ℕ) : MState :=
  if 0.05 < s.speed.getD i 0 then induce_damage (s.speed.getD i 0) s else s

/-- speed_damage from model.c. -/
def speed_damage (s : MState) : MState × ℤ :=
  if 0.05 * ((1 : ℚ) / 8) < speed_mean (speed_update s) then
    (List.foldl speed_induce_step (speed_update s) [0, 1, 2, 3, 4, 5, 6, 7], 1)
  else (speed_update s, 0)

/-- check_if_damage from model.c; the || operator short-circuits, so
speed_damage runs only when circ_damage reports 0. -/
def check_if_damage (s : MState) : MState × ℤ :=
  if (circ_damage s).2 ≠ 0 then ((circ_damage s).1, 1)
  else if (speed_damage (circ_damage s).1).2 ≠ 0 then ((speed_damage (circ_damage s).1).1, 1)
  else ((speed_damage (circ_damage s).1).1, 0)

/-- update_vars from model.c.  With loopstart set it decays the variables,
refreshes the sensors from the raw frame and runs the damage check first. -/
def update_vars (raw : List ℕ) (loopstart : Bool) (s : MState) : MState :=
  if loopstart then
    update_vars_zero (check_if_damage (get_sensors raw (decrease_physoligical_variables s))).1
  else
    update_vars_zero s

/-- winner_takes_all from model.c: 1 energy, 2 tegument, 3 integrity, -1 on
no strict winner. -/
def winner_takes_all (m1 m2 m3 : ℚ) : ℤ :=
  if m1 > m2 ∧ m1 > m3 then 1
  else if m2 > m1 ∧ m2 > m3 then 2
  else if m3 > m1 ∧ m3 > m2 then 3
  else -1

/-- move from model.c: emit a motor command. -/
def move (motor_left motor_right : ℚ) (s : MState) : MState :=
  { s with events := s.events ++ [Event.moveCmd motor_left motor_right] }

/-- eat from model.c. -/
def eat (s : MState) : MState := { s with var_energy := s.var_energy + 0.05 }

/-- seek_food from model.c. -/
def seek_food (s : MState) : MState := move 0.8 0.8 s

/-- energy_behavioral_group from model.c; can_eat is the constant 0. -/
def energy_behavioral_group (s : MState) : MState :=
  seek_food (if (0 : ℤ) ≠ 0 then eat s else s)

/-- groom_animation from model.c. -/
def groom_animation (s : MState) : MState := move 1 (-1) (move (-1) 1 s)

/-- groom from model.c; it increments the energy variable. -/
def groom (s : MState) : MState := groom_animation { s with var_energy := s.var_energy + 0.05 }

/-- seek_grooming_spot from model.c. -/
def seek_grooming_spot (s : MState) : MState := move 0.8 0.8 s

/-- tegument_behavioral_group from model.c; can_groom is the constant 0. -/
def tegument_behavioral_group (s : MState) : MState :=
  seek_grooming_spot (if (0 : ℤ) ≠ 0 then groom s else s)

/-- Left weight table of avoid, all zero in model.c. -/
def avoid_weight_l : List ℚ := [0, 0, 0, 0, 0, 0, 0, 0]

/-- Right weight table of avoid, all zero in model.c. -/
def avoid_weight_r : List ℚ := [0, 0, 0, 0, 0, 0, 0, 0]

/-- Normalization inside avoid: (sensors[i] - 0) / (1023 - 0) computed in
int arithmetic before conversion to float. -/
def avoid_normalized (s : MState) (i : ℕ) : ℚ :=
  ((Int.tdiv (s.sensors.getD i 0 - 0) (1023 - 0) : ℤ) : ℚ)

/-- avoid from model.c. -/
def avoid (s : MState) : MState :=
  let l := (List.foldl (fun acc i => acc + avoid_weight_l.getD i 0 * avoid_normalized s i)
      s.left_speed [0, 1, 2, 3, 4, 5, 6, 7]) / 8
  let r := (List.foldl (fun acc i => acc + avoid_weight_r.getD i 0 * avoid_normalized s i)
      s.right_speed [0, 1, 2, 3, 4, 5, 6, 7]) / 8
  move l r { s with left_speed := l, right_speed := r }

/-- integrity_behavioral_group from model.c. -/
def integrity_behavioral_group (s : MState) : MState := avoid s

/-- compute_speed from model.c: dispatch on the selected behavioral group;
the error case zeroes both wheel speeds. -/
def compute_speed (bhv : ℤ) (s : MState) : MState :=
  if bhv = 1 then energy_behavioral_group s
  else if bhv = 2 then tegument_behavioral_group s
  else if bhv = 3 then integrity_behavioral_group s
  else { s with left_speed := 0, right_speed := 0 }

/-- stop_moving from model.c: emit the stop command. -/
def stop_moving (s : MState) : MState := { s with events := s.events ++ [Event.stopCmd] }

/-- death_animation from model.c: emit the terminal feedback. -/
def death_animation (s : MState) : MState := { s with events := s.events ++ [Event.deathAnim] }

/-- One iteration of the while loop in model: full update, arbitration,
dispatch, motor command, sensor history snapshot. -/
def model_body (raw : List ℕ) (s : MState) : MState :=
  let t := update_vars raw true s
  let u := compute_speed (winner_takes_all t.mot_energy t.mot_tegument t.mot_integrity) t
  get_sensors_history (move u.left_speed u.right_speed u)

/-- The while loop of model, with fuel bounding the number of iterations
observed.  The returned flag is true when the loop exits through its
condition; env k is the raw frame delivered by the k-th sensor read. -/
def model_loop (env : ℕ → List ℕ) : ℕ → ℕ → MState → MState × Bool
  | 0, _, s => (s, false)
  | fuel + 1, k, s =>
    if 0 < s.var_energy ∧ 0 < s.var_tegument ∧ 0 < s.var_integrity then
      model_loop env fuel (k + 1) (model_body (env k) s)
    else
      (death_animation (stop_moving s), true)

/-- model from model.c: an initial sensor read, then the control loop. -/
def model (env : ℕ → List ℕ) (fuel : ℕ) (s : MState) : MState × Bool :=
  model_loop env fuel 1 (get_sensors (env 0) s)

/-- Scenario A environment: constant mid-range raw readings of 300. -/
def scenarioA_env : ℕ → List ℕ := fun _ => List.replicate 8 300

/-- A state exhibiting the single-cycle spike of scenario B: previous frame
constant at 100, current frame with a spike of 110 on channel 3. -/
def scenarioB_state : MState :=
  { init with
    sensors := [100, 100, 100, 210, 100, 100, 100, 100]
    prev_sensors := List.replicate 8 100 }

/-- Agreement of two states on the inputs of damage detection and
motivation computation: sensors, sensor history, the two speed tables and
the three need variables. -/
abbrev coreEq (a b : MState) : Prop :=
  a.var_energy = b.var_energy ∧ a.var_tegument = b.var_tegument ∧
  a.var_integrity = b.var_integrity ∧ a.sensors = b.sensors ∧
  a.prev_sensors = b.prev_sensors ∧ a.speed = b.speed ∧ a.circ_speed = b.circ_speed

set_option maxRecDepth 100000

set_option maxHeartbeats 2000000

/-- The circular damage heuristic returns the constant flag 0. -/
theorem circ_damage_flag (s : MState) : (circ_damage s).2 = 0 := rfl

/-- The speed damage heuristic returns flag 0 or 1. -/
theorem speed_damage_flag (s : MState) :
    (speed_damage s).2 = 0 ∨ (speed_damage s).2 = 1 := by
  unfold speed_damage
  split
  · right; rfl
  · left; rfl

/-- Every value stored by the sensor scaling lies between 0 and MAX_DIST. -/
theorem scale_sensor_bounds (raw : ℕ) : 0 ≤ scale_sensor raw ∧ scale_sensor raw ≤ 500 := by
  unfold scale_sensor MAX_DIST MIN_DIST
  split_ifs <;> omega

/-- Sum bound for a list of int values between 0 and 500. -/
theorem sum_bounds (l : List ℤ) (hl : ∀ x ∈ l, 0 ≤ x ∧ x ≤ 500) :
    0 ≤ l.sum ∧ l.sum ≤ 500 * l.length := by
  induction l with
  | nil => simp
  | cons x xs ih =>
    have hx := hl x (by simp)
    have ihx := ih (fun y hy => hl y (by simp [hy]))
    simp only [List.sum_cons, List.length_cons]
    omega

/-- All fields of the state after induce_damage, as functions of the state
before the call. -/
theorem induce_damage_fields (m : ℚ) (s : MState) :
    (induce_damage m s).var_integrity = s.var_integrity - m * 0.01 ∧
    (induce_damage m s).var_energy = s.var_energy ∧
    (induce_damage m s).var_tegument = s.var_tegument ∧
    (induce_damage m s).def_energy = 1 - s.var_energy ∧
    (induce_damage m s).def_tegument = 1 - s.var_tegument ∧
    (induce_damage m s).def_integrity = 1 - (s.var_integrity - m * 0.01) ∧
    (induce_damage m s).cue_energy = 0.06 ∧
    (induce_damage m s).cue_tegument = 0.055 ∧
    (induce_damage m s).cue_integrity = get_mean_normalized s.sensors 8 MIN_DIST MAX_DIST ∧
    (induce_damage m s).mot_energy = (1 - s.var_energy) + (1 - s.var_energy) * 0.06 ∧
    (induce_damage m s).mot_tegument = (1 - s.var_tegument) + (1 - s.var_tegument) * 0.055 ∧
    (induce_damage m s).mot_integrity
      = (1 - (s.var_integrity - m * 0.01))
        + (1 - (s.var_integrity - m * 0.01)) * get_mean_normalized s.sensors 8 MIN_DIST MAX_DIST ∧
    (induce_damage m s).sensors = s.sensors ∧
    (induce_damage m s).prev_sensors = s.prev_sensors ∧
    (induce_damage m s).speed = s.speed ∧
    (induce_damage m s).circ_speed = s.circ_speed := by
  unfold induce_damage
  split <;>
    exact ⟨rfl, rfl, rfl, rfl, rfl, rfl, rfl, rfl, rfl, rfl, rfl, rfl, rfl, rfl, rfl, rfl⟩

/-- C1.  winner_takes_all returns the code of the need whose motivation is
strictly greater than both others (1 energy, 2 tegument, 3 integrity), and
returns -1, the None sentinel, exactly when no need is a strict winner;
in particular motivations (1,1,1) give -1 and (2,1,1) give 1. -/
theorem C1_winner_takes_all_strict_winner :
    (∀ m1 m2 m3 : ℚ,
      (winner_takes_all m1 m2 m3 = 1 ↔ m1 > m2 ∧ m1 > m3) ∧
      (winner_takes_all m1 m2 m3 = 2 ↔ m2 > m1 ∧ m2 > m3) ∧
      (winner_takes_all m1 m2 m3 = 3 ↔ m3 > m1 ∧ m3 > m2) ∧
      (winner_takes_all m1 m2 m3 = -1 ↔
        ¬(m1 > m2 ∧ m1 > m3) ∧ ¬(m2 > m1 ∧ m2 > m3) ∧ ¬(m3 > m1 ∧ m3 > m2))) ∧
    winner_takes_all 1 1 1 = -1 ∧ winner_takes_all 2 1 1 = 1 := by
  refine ⟨fun m1 m2 m3 => ?_, by decide, by decide⟩
  unfold winner_takes_all
  split_ifs with h1 h2 h3
  · exact ⟨⟨fun _ => h1, fun _ => rfl⟩,
      ⟨fun hh => absurd hh (by decide), fun hh => absurd hh.1 (lt_asymm h1.1)⟩,
      ⟨fun hh => absurd hh (by decide), fun hh => absurd hh.1 (lt_asymm h1.2)⟩,
      ⟨fun hh => absurd hh (by decide), fun hh => absurd h1 hh.1⟩⟩
  · exact ⟨⟨fun hh => absurd hh (by decide), fun hh => absurd hh h1⟩,
      ⟨fun _ => h2, fun _ => rfl⟩,
      ⟨fun hh => absurd hh (by decide), fun hh => absurd hh.2 (lt_asymm h2.2)⟩,
      ⟨fun hh => absurd hh (by decide), fun hh => absurd h2 hh.2.1⟩⟩
  · exact ⟨⟨fun hh => absurd hh (by decide), fun hh => absurd hh h1⟩,
      ⟨fun hh => absurd hh (by decide), fun hh => absurd hh h2⟩,
      ⟨fun _ => h3, fun _ => rfl⟩,
      ⟨fun hh => absurd hh (by decide), fun hh => absurd h3 hh.2.2⟩⟩
  · exact ⟨⟨fun hh => absurd hh (by decide), fun hh => absurd hh h1⟩,
      ⟨fun hh => absurd hh (by decide), fun hh => absurd hh h2⟩,
      ⟨fun hh => absurd hh (by decide), fun hh => absurd hh h3⟩,
      ⟨fun _ => ⟨h1, h2, h3⟩, fun _ => rfl⟩⟩

/-- C3.  Code bug witness: in the state of scenario B (previous frame
constant 100, current frame spiking to 210 on channel 3, all channel speeds
zero as at process start), the spike exceeds the five percent threshold of
21, yet speed_damage reports no damage, leaves every channel speed at zero
(diff / TIME vanishes in int arithmetic), leaves the integrity variable
unchanged and emits no damage feedback. -/
theorem C3_speed_damage_spike_no_damage :
    21 < ((scenarioB_state.sensors.getD 3 0 - scenarioB_state.prev_sensors.getD 3 0).natAbs : ℚ) ∧
    0.05 * ((MAX_DIST - MIN_DIST : ℤ) : ℚ) = 21 ∧
    (speed_damage scenarioB_state).2 = 0 ∧
    (speed_damage scenarioB_state).1.speed = List.replicate 8 0 ∧
    (speed_damage scenarioB_state).1.var_integrity = scenarioB_state.var_integrity ∧
    (speed_damage scenarioB_state).1.events = scenarioB_state.events := by decide

/-- C4 counterexample.  A raw magnitude above MAX_DIST is stored as
MAX_DIST itself, not as the scaled value of raw = MAX_DIST as the claim
states: raw 501 is stored as 500 while raw 500 is stored as 210. -/
theorem C4_sensor_clamp_counterexample :
    scale_sensor 501 = 500 ∧ scale_sensor_spec 501 = 210 ∧ scale_sensor 500 = 210 ∧
    scale_sensor 501 ≠ scale_sensor 500 := by decide

/-- C4 amended.  For raw magnitudes up to MAX_DIST the stored value agrees
with the clamp-then-scale mapping of the specification (in particular raw 0
and raw MIN_DIST store 0 and raw MAX_DIST stores 210); any raw magnitude
above MAX_DIST is stored as MAX_DIST = 500 itself. -/
theorem C4_scale_sensor_amended (raw : ℕ) :
    (raw ≤ 500 → scale_sensor raw = scale_sensor_spec raw) ∧
    (500 < raw → scale_sensor raw = 500) ∧
    scale_sensor 0 = 0 ∧ scale_sensor 80 = 0 ∧ scale_sensor 500 = 210 := by
  refine ⟨?_, ?_, by decide, by decide, by decide⟩
  · intro h
    unfold scale_sensor scale_sensor_spec MAX_DIST MIN_DIST
    split_ifs <;> omega
  · intro h
    unfold scale_sensor MAX_DIST
    rw [if_pos (by omega)]

/-- C4 witness: the amended statement applied at raw 300 and raw 501. -/
theorem C4_scale_sensor_amended_witness :
    (300 : ℕ) ≤ 500 ∧ scale_sensor 300 = scale_sensor_spec 300 ∧
    500 < (501 : ℕ) ∧ scale_sensor 501 = 500 :=
  ⟨by decide, (C4_scale_sensor_amended 300).1 (by decide), by decide,
    (C4_scale_sensor_amended 501).2.1 (by decide)⟩

/-- C5 counterexample.  Starting from the initial state with constant
mid-range raw readings 300 and no spikes, after 10 full loopstart cycles the
integrity variable is not 1: the adjacency heuristic induces damage on every
cycle after the first. -/
theorem C5_scenarioA_integrity_not_one :
    (model scenarioA_env 10 init).1.var_integrity ≠ 1 := by decide

/-- C5 amended.  In scenario A (all needs at 1, constant mid-range raw
readings 300, no spikes) after 10 full loopstart cycles the energy variable
is exactly 0.96 and the tegument variable exactly 0.985, but the integrity
variable is exactly 1 - 297 * M_PI / 2500000: from the second cycle on, the
adjacency heuristic induces damage 0.22 * (6 * M_PI / TIME) per cycle. -/
theorem C5_scenarioA_amended :
    (model scenarioA_env 10 init).1.var_energy = 0.96 ∧
    (model scenarioA_env 10 init).1.var_tegument = 0.985 ∧
    (model scenarioA_env 10 init).1.var_integrity = 1 - 297 * M_PI / 2500000 ∧
    (model scenarioA_env 10 init).2 = false := by decide

/-- C8.  check_if_damage combines the two heuristics: its state is the one
produced by running circ_damage and then speed_damage (both always run,
because circ_damage always reports 0 and the || short-circuit therefore
always evaluates its right operand), both flags are 0 or 1, and the returned
flag is 1 exactly when some heuristic reports 1. -/
theorem C8_check_if_damage_or_both_run (s : MState) :
    (check_if_damage s).1 = (speed_damage (circ_damage s).1).1 ∧
    ((circ_damage s).2 = 0 ∨ (circ_damage s).2 = 1) ∧
    ((speed_damage (circ_damage s).1).2 = 0 ∨ (speed_damage (circ_damage s).1).2 = 1) ∧
    (check_if_damage s).2 =
      (if (circ_damage s).2 = 1 ∨ (speed_damage (circ_damage s).1).2 = 1 then 1 else 0) := by
  refine ⟨?_, Or.inl (circ_damage_flag s), speed_damage_flag _, ?_⟩
  · unfold check_if_damage
    rw [if_neg (by simp [circ_damage_flag])]
    split <;> rfl
  · unfold check_if_damage
    rw [if_neg (by simp [circ_damage_flag])]
    rcases speed_damage_flag (circ_damage s).1 with h | h <;>
      simp [h, circ_damage_flag]

/-- C10.  The adjacency heuristic always returns flag 0, so the combined
flag of check_if_damage equals the flag of the speed heuristic alone. -/
theorem C10_circ_damage_never_flags (s : MState) :
    (circ_damage s).2 = 0 ∧
    (check_if_damage s).2 = (speed_damage (circ_damage s).1).2 := by
  refine ⟨rfl, ?_⟩
  unfold check_if_damage
  rw [if_neg (by simp [circ_damage_flag])]
  rcases speed_damage_flag (circ_damage s).1 with h | h <;> simp [h]

/-- When the loop flag of model_loop is true, the final state has some need
variable at or below zero and its event trace ends with the stop command
followed by the terminal feedback. -/
theorem model_loop_terminal (env : ℕ → List ℕ) :
    ∀ (fuel k : ℕ) (s : MState), (model_loop env fuel k s).2 = true →
      ((model_loop env fuel k s).1.var_energy ≤ 0 ∨
       (model_loop env fuel k s).1.var_tegument ≤ 0 ∨
       (model_loop env fuel k s).1.var_integrity ≤ 0) ∧
      ∃ pre, (model_loop env fuel k s).1.events = pre ++ [Event.stopCmd, Event.deathAnim] := by
  intro fuel
  induction fuel with
  | zero => intro k s h; simp [model_loop] at h
  | succ n ih =>
    intro k s h
    by_cases ha : 0 < s.var_energy ∧ 0 < s.var_tegument ∧ 0 < s.var_integrity
    · rw [model_loop, if_pos ha] at h ⊢
      exact ih _ _ h
    · rw [model_loop, if_neg ha] at h ⊢
      refine ⟨?_, s.events, ?_⟩
      · rcases le_or_lt s.var_energy 0 with h1 | h1
        · exact Or.inl h1
        rcases le_or_lt s.var_tegument 0 with h2 | h2
        · exact Or.inr (Or.inl h2)
        rcases le_or_lt s.var_integrity 0 with h3 | h3
        · exact Or.inr (Or.inr h3)
        exact absurd ⟨h1, h2, h3⟩ ha
      · show (death_animation (stop_moving s)).events
            = s.events ++ [Event.stopCmd, Event.deathAnim]
        simp [death_animation, stop_moving]

/-- C2.  The control loop runs another tick exactly when all three need
variables are strictly positive: with positive variables one more body runs;
otherwise the loop exits at once emitting the stop command and then the
terminal feedback, with no further iteration; and whenever the loop has
terminated, the final state has some need variable at or below zero and its
trace ends with the stop command followed by the terminal feedback. -/
theorem C2_model_loop_termination (env : ℕ → List ℕ) (fuel k : ℕ) (s : MState) :
    ((0 < s.var_energy ∧ 0 < s.var_tegument ∧ 0 < s.var_integrity) →
      model_loop env (fuel + 1) k s = model_loop env fuel (k + 1) (model_body (env k) s)) ∧
    ((s.var_energy ≤ 0 ∨ s.var_tegument ≤ 0 ∨ s.var_integrity ≤ 0) →
      model_loop env (fuel + 1) k s
        = ({ s with events := s.events ++ [Event.stopCmd, Event.deathAnim] }, true)) ∧
    ((model_loop env fuel k s).2 = true →
      ((model_loop env fuel k s).1.var_energy ≤ 0 ∨
       (model_loop env fuel k s).1.var_tegument ≤ 0 ∨
       (model_loop env fuel k s).1.var_integrity ≤ 0) ∧
      ∃ pre, (model_loop env fuel k s).1.events = pre ++ [Event.stopCmd, Event.deathAnim]) := by
  refine ⟨fun h => ?_, fun h => ?_, model_loop_terminal env fuel k s⟩
  · rw [model_loop, if_pos h]
  · have hna : ¬(0 < s.var_energy ∧ 0 < s.var_tegument ∧ 0 < s.var_integrity) := by
      rcases h with h | h | h <;> intro hc
      · exact absurd hc.1 (not_lt.mpr h)
      · exact absurd hc.2.1 (not_lt.mpr h)
      · exact absurd hc.2.2 (not_lt.mpr h)
    rw [model_loop, if_neg hna]
    simp [death_animation, stop_moving, Prod.ext_iff]

/-- C2 witness: one live step from the initial state, and immediate
termination from a state whose energy variable is zero. -/
theorem C2_model_loop_termination_witness :
    model_loop scenarioA_env 1 0 init
        = model_loop scenarioA_env 0 1 (model_body (scenarioA_env 0) init) ∧
    model_loop scenarioA_env 1 0 { init with var_energy := 0 }
        = ({ init with var_energy := 0, events := init.events ++ [Event.stopCmd, Event.deathAnim] }, true) :=
  ⟨(C2_model_loop_termination scenarioA_env 0 0 init).1 (by decide),
   (C2_model_loop_termination scenarioA_env 0 0 { init with var_energy := 0 }).2.1
     (by decide)⟩

/-- C6 counterexample.  The sensor frame produced from raw readings all
below MIN_DIST consists of zeroes, and the integrity cue computed from it
is -4/21, which is negative, contradicting the claimed interval [0, 1]. -/
theorem C6_cue_negative_counterexample :
    (compute_cues (get_sensors (List.replicate 8 0) init)).cue_integrity = -(4 / 21 : ℚ) ∧
    (compute_cues (get_sensors (List.replicate 8 0) init)).cue_integrity < 0 := by decide

/-- C6 amended.  After cue computation on a frame produced by the sensor
refresh from any 8-channel raw reading, the integrity cue equals the mean of
the stored frame normalized with the MIN_DIST and MAX_DIST bounds, and this
value lies in the interval [-4/21, 1] (not [0, 1]: frames with all channels
below MIN_DIST reach -4/21, and saturated frames reach 1). -/
theorem C6_cue_mean_amended (raw : List ℕ) (s : MState) (h : raw.length = 8) :
    (compute_cues (get_sensors raw s)).cue_integrity
      = ((((raw.map scale_sensor).sum : ℤ) : ℚ) / 8 - 80) / 420 ∧
    -(4 / 21 : ℚ) ≤ (compute_cues (get_sensors raw s)).cue_integrity ∧
    (compute_cues (get_sensors raw s)).cue_integrity ≤ 1 := by
  have hlen : (raw.map scale_sensor).length = 8 := by simp [h]
  have ht : (raw.map scale_sensor).take 8 = raw.map scale_sensor :=
    List.take_of_length_le (by omega)
  have heq : (compute_cues (get_sensors raw s)).cue_integrity
      = ((((raw.map scale_sensor).sum : ℤ) : ℚ) / 8 - 80) / 420 := by
    show get_mean_normalized (raw.map scale_sensor) 8 MIN_DIST MAX_DIST = _
    unfold get_mean_normalized MIN_DIST MAX_DIST
    rw [ht]
    norm_num
  have hfa : ∀ x ∈ raw.map scale_sensor, 0 ≤ x ∧ x ≤ 500 := by
    intro x hx
    rcases List.mem_map.mp hx with ⟨r, -, rfl⟩
    exact scale_sensor_bounds r
  have hb := sum_bounds (raw.map scale_sensor) hfa
  have h4z : (raw.map scale_sensor).sum ≤ 4000 := by omega
  have h0 : (0 : ℚ) ≤ (((raw.map scale_sensor).sum : ℤ) : ℚ) := by exact_mod_cast hb.1
  have h4 : (((raw.map scale_sensor).sum : ℤ) : ℚ) ≤ 4000 := by exact_mod_cast h4z
  refine ⟨heq, ?_, ?_⟩ <;> rw [heq]
  · linarith
  · linarith

/-- C6 witness: the amended statement applied to the constant mid-range raw
frame 300. -/
theorem C6_cue_mean_amended_witness :
    (List.replicate 8 300 : List ℕ).length = 8 ∧
    ((compute_cues (get_sensors (List.replicate 8 300) init)).cue_integrity
        = (((((List.replicate 8 300 : List ℕ).map scale_sensor).sum : ℤ) : ℚ) / 8 - 80) / 420 ∧
     -(4 / 21 : ℚ) ≤ (compute_cues (get_sensors (List.replicate 8 300) init)).cue_integrity ∧
     (compute_cues (get_sensors (List.replicate 8 300) init)).cue_integrity ≤ 1) :=
  ⟨by decide, C6_cue_mean_amended (List.replicate 8 300) init (by decide)⟩

/-- C7 counterexample.  At the initial state, whose deficit fields have not
yet been made consistent with the variables, induce_damage changes the
energy and tegument deficit and motivation fields, contradicting the claim
that they are left unchanged. -/
theorem C7_induce_damage_counterexample :
    (induce_damage 1 init).var_integrity = init.var_integrity - 1 * 0.01 ∧
    (induce_damage 1 init).def_energy ≠ init.def_energy ∧
    (induce_damage 1 init).mot_energy ≠ init.mot_energy ∧
    (induce_damage 1 init).def_tegument ≠ init.def_tegument := by decide

/-- C7 amended.  induce_damage(m) decreases the integrity variable by
exactly m * 0.01 and leaves the energy and tegument variables unchanged, but
it recomputes deficit, cue and motivation of all three needs from the
current variable and sensor values (update_vars with loopstart = 0); the
energy and tegument fields are unchanged exactly on states where they were
already consistent with the current variables. -/
theorem C7_induce_damage_amended (m : ℚ) (s : MState) :
    (induce_damage m s).var_integrity = s.var_integrity - m * 0.01 ∧
    (induce_damage m s).var_energy = s.var_energy ∧
    (induce_damage m s).var_tegument = s.var_tegument ∧
    (induce_damage m s).def_energy = 1 - s.var_energy ∧
    (induce_damage m s).def_tegument = 1 - s.var_tegument ∧
    (induce_damage m s).def_integrity = 1 - (s.var_integrity - m * 0.01) ∧
    (induce_damage m s).cue_energy = 0.06 ∧
    (induce_damage m s).cue_tegument = 0.055 ∧
    (induce_damage m s).cue_integrity = get_mean_normalized s.sensors 8 MIN_DIST MAX_DIST ∧
    (induce_damage m s).mot_energy = (1 - s.var_energy) + (1 - s.var_energy) * 0.06 ∧
    (induce_damage m s).mot_tegument = (1 - s.var_tegument) + (1 - s.var_tegument) * 0.055 ∧
    (induce_damage m s).mot_integrity
      = (1 - (s.var_integrity - m * 0.01))
        + (1 - (s.var_integrity - m * 0.01)) * get_mean_normalized s.sensors 8 MIN_DIST MAX_DIST ∧
    (s.def_energy = 1 - s.var_energy → (induce_damage m s).def_energy = s.def_energy) ∧
    (s.cue_energy = 0.06 → (induce_damage m s).cue_energy = s.cue_energy) ∧
    (s.def_energy = 1 - s.var_energy ∧ s.cue_energy = 0.06 ∧
        s.mot_energy = s.def_energy + s.def_energy * s.cue_energy →
      (induce_damage m s).mot_energy = s.mot_energy) ∧
    (s.def_tegument = 1 - s.var_tegument → (induce_damage m s).def_tegument = s.def_tegument) ∧
    (s.cue_tegument = 0.055 → (induce_damage m s).cue_tegument = s.cue_tegument) ∧
    (s.def_tegument = 1 - s.var_tegument ∧ s.cue_tegument = 0.055 ∧
        s.mot_tegument = s.def_tegument + s.def_tegument * s.cue_tegument →
      (induce_damage m s).mot_tegument = s.mot_tegument) := by
  obtain ⟨e1, e2, e3, e4, e5, e6, e7, e8, e9, e10, e11, e12, -, -, -, -⟩ :=
    induce_damage_fields m s
  refine ⟨e1, e2, e3, e4, e5, e6, e7, e8, e9, e10, e11, e12, ?_, ?_, ?_, ?_, ?_, ?_⟩
  · intro hd; rw [e4, hd]
  · intro hc; rw [e7, hc]
  · rintro ⟨hd, hc, hm⟩; rw [e10, hm, hd, hc]
  · intro hd; rw [e5, hd]
  · intro hc; rw [e8, hc]
  · rintro ⟨hd, hc, hm⟩; rw [e11, hm, hd, hc]

/-- C7 witness: on a state whose fields are consistent with the variables
(the initial state after one partial update), the energy deficit really is
unchanged by induce_damage. -/
theorem C7_induce_damage_amended_witness :
    (update_vars_zero init).def_energy = 1 - (update_vars_zero init).var_energy ∧
    (induce_damage 2 (update_vars_zero init)).def_energy
      = (update_vars_zero init).def_energy := by
  refine ⟨by decide, ?_⟩
  obtain ⟨-, -, -, -, -, -, -, -, -, -, -, -, h13, -, -, -, -, -⟩ :=
    C7_induce_damage_amended 2 (update_vars_zero init)
  exact h13 (by decide)

/-- A fold over channel indices preserves core agreement when its step
function does. -/
theorem coreEq_foldl (f : MState → ℕ → MState)
    (hf : ∀ a b i, coreEq a b → coreEq (f a i) (f b i)) :
    ∀ (l : List ℕ) (a b : MState), coreEq a b →
      coreEq (List.foldl f a l) (List.foldl f b l) := by
  intro l
  induction l with
  | nil => intro a b h; simpa using h
  | cons x xs ih =>
    intro a b h
    simpa using ih (f a x) (f b x) (hf a b x h)

/-- induce_damage preserves core agreement. -/
theorem coreEq_induce (m : ℚ) (a b : MState) (h : coreEq a b) :
    coreEq (induce_damage m a) (induce_damage m b) := by
  obtain ⟨h1, h2, h3, h4, h5, h6, h7⟩ := h
  obtain ⟨a1, a2, a3, -, -, -, -, -, -, -, -, -, a13, a14, a15, a16⟩ := induce_damage_fields m a
  obtain ⟨b1, b2, b3, -, -, -, -, -, -, -, -, -, b13, b14, b15, b16⟩ := induce_damage_fields m b
  exact ⟨by rw [a2, b2, h1], by rw [a3, b3, h2], by rw [a1, b1, h3],
    by rw [a13, b13, h4], by rw [a14, b14, h5], by rw [a15, b15, h6], by rw [a16, b16, h7]⟩

/-- The first circ_damage loop step preserves core agreement. -/
theorem coreEq_circ_first (a b : MState) (i : ℕ) (h : coreEq a b) :
    coreEq (circ_first_step a i) (circ_first_step b i) := by
  obtain ⟨h1, h2, h3, h4, h5, h6, h7⟩ := h
  unfold circ_first_step
  rw [h4, h5, h7]
  split_ifs with hc
  · exact ⟨h1, h2, h3, rfl, rfl, h6, rfl⟩
  · exact ⟨h1, h2, h3, h4, h5, h6, h7⟩

/-- The second circ_damage loop step preserves core agreement. -/
theorem coreEq_circ_second (a b : MState) (i : ℕ) (h : coreEq a b) :
    coreEq (circ_second_step a i) (circ_second_step b i) := by
  obtain ⟨h1, h2, h3, h4, h5, h6, h7⟩ := h
  unfold circ_second_step
  rw [h7]
  split_ifs with hc
  · exact ⟨h1, h2, h3, h4, h5, h6, rfl⟩
  · exact ⟨h1, h2, h3, h4, h5, h6, h7⟩

/-- The third circ_damage loop step preserves core agreement. -/
theorem coreEq_circ_induce (a b : MState) (i : ℕ) (h : coreEq a b) :
    coreEq (circ_induce_step a i) (circ_induce_step b i) := by
  have h7 := h.2.2.2.2.2.2
  unfold circ_induce_step
  rw [h7]
  exact coreEq_induce _ _ _ h

/-- The per-channel speed_damage loop step preserves core agreement. -/
theorem coreEq_speed_step (a b : MState) (i : ℕ) (h : coreEq a b) :
    coreEq (speed_damage_step a i) (speed_damage_step b i) := by
  obtain ⟨h1, h2, h3, h4, h5, h6, h7⟩ := h
  unfold speed_damage_step
  rw [h4, h5, h6]
  split_ifs with hc <;> exact ⟨h1, h2, h3, rfl, rfl, rfl, h7⟩

/-- The damage-inducing speed_damage loop step preserves core agreement. -/
theorem coreEq_speed_induce (a b : MState) (i : ℕ) (h : coreEq a b) :
    coreEq (speed_induce_step a i) (speed_induce_step b i) := by
  have h6 := h.2.2.2.2.2.1
  unfold speed_induce_step
  rw [h6]
  split_ifs with hc
  · exact coreEq_induce _ _ _ h
  · exact h

/-- circ_damage preserves core agreement. -/
theorem coreEq_circ_damage (a b : MState) (h : coreEq a b) :
    coreEq (circ_damage a).1 (circ_damage b).1 := by
  have t1 := coreEq_foldl circ_first_step
    (fun p q i hp => coreEq_circ_first p q i hp) [1, 2, 3, 4, 5, 6] a b h
  have t2 := coreEq_foldl circ_second_step
    (fun p q i hp => coreEq_circ_second p q i hp) [1, 2, 3, 4, 5, 6] _ _ t1
  have t3 := coreEq_foldl circ_induce_step
    (fun p q i hp => coreEq_circ_induce p q i hp) [0, 1, 2, 3, 4, 5, 6] _ _ t2
  exact t3

/-- speed_damage preserves core agreement and its flag is determined by the
core fields. -/
theorem coreEq_speed_damage (a b : MState) (h : coreEq a b) :
    coreEq (speed_damage a).1 (speed_damage b).1 ∧
    (speed_damage a).2 = (speed_damage b).2 := by
  have hu : coreEq (speed_update a) (speed_update b) :=
    coreEq_foldl speed_damage_step
      (fun p q i hp => coreEq_speed_step p q i hp) [0, 1, 2, 3, 4, 5, 6, 7] a b h
  have hm : speed_mean (speed_update a) = speed_mean (speed_update b) := by
    unfold speed_mean
    rw [hu.2.2.2.2.2.1]
  unfold speed_damage
  rw [hm]
  split_ifs with hc
  · dsimp only
    exact ⟨coreEq_foldl speed_induce_step
      (fun p q i hp => coreEq_speed_induce p q i hp) [0, 1, 2, 3, 4, 5, 6, 7] _ _ hu, rfl⟩
  · dsimp only
    exact ⟨hu, rfl⟩

/-- C9.  Damage detection and motivation computation are deterministic pure
functions of the sensor frame, the sensor history, the two speed tables and
the three need variables: two states agreeing on those inputs produce the
same combined damage flag, states agreeing again on those inputs, and the
same deficits, cues and motivations from the partial update. -/
theorem C9_damage_motivation_deterministic (p q : MState) (h : coreEq p q) :
    (check_if_damage p).2 = (check_if_damage q).2 ∧
    coreEq (check_if_damage p).1 (check_if_damage q).1 ∧
    (update_vars_zero p).def_energy = (update_vars_zero q).def_energy ∧
    (update_vars_zero p).def_tegument = (update_vars_zero q).def_tegument ∧
    (update_vars_zero p).def_integrity = (update_vars_zero q).def_integrity ∧
    (update_vars_zero p).cue_energy = (update_vars_zero q).cue_energy ∧
    (update_vars_zero p).cue_tegument = (update_vars_zero q).cue_tegument ∧
    (update_vars_zero p).cue_integrity = (update_vars_zero q).cue_integrity ∧
    (update_vars_zero p).mot_energy = (update_vars_zero q).mot_energy ∧
    (update_vars_zero p).mot_tegument = (update_vars_zero q).mot_tegument ∧
    (update_vars_zero p).mot_integrity = (update_vars_zero q).mot_integrity := by
  obtain ⟨h1, h2, h3, h4, h5, h6, h7⟩ := h
  have hc : coreEq (circ_damage p).1 (circ_damage q).1 :=
    coreEq_circ_damage p q ⟨h1, h2, h3, h4, h5, h6, h7⟩
  have hs := coreEq_speed_damage (circ_damage p).1 (circ_damage q).1 hc
  have hp0 : ¬((circ_damage p).2 ≠ 0) := by simp [circ_damage_flag]
  have hq0 : ¬((circ_damage q).2 ≠ 0) := by simp [circ_damage_flag]
  refine ⟨?_, ?_, ?_, ?_, ?_, ?_, ?_, ?_, ?_, ?_, ?_⟩
  · unfold check_if_damage
    rw [if_neg hp0, if_neg hq0, hs.2]
    split_ifs
    · dsimp only
    · dsimp only
  · unfold check_if_damage
    rw [if_neg hp0, if_neg hq0, hs.2]
    split_ifs
    · dsimp only
      exact hs.1
    · dsimp only
      exact hs.1
  · show 1 - p.var_energy = 1 - q.var_energy
    rw [h1]
  · show 1 - p.var_tegument = 1 - q.var_tegument
    rw [h2]
  · show 1 - p.var_integrity = 1 - q.var_integrity
    rw [h3]
  · rfl
  · rfl
  · show get_mean_normalized p.sensors 8 MIN_DIST MAX_DIST
        = get_mean_normalized q.sensors 8 MIN_DIST MAX_DIST
    rw [h4]
  · show (1 - p.var_energy) + (1 - p.var_energy) * (0.06 : ℚ)
        = (1 - q.var_energy) + (1 - q.var_energy) * (0.06 : ℚ)
    rw [h1]
  · show (1 - p.var_tegument) + (1 - p.var_tegument) * (0.055 : ℚ)
        = (1 - q.var_tegument) + (1 - q.var_tegument) * (0.055 : ℚ)
    rw [h2]
  · show (1 - p.var_integrity) + (1 - p.var_integrity) * get_mean_normalized p.sensors 8 MIN_DIST MAX_DIST
        = (1 - q.var_integrity) + (1 - q.var_integrity) * get_mean_normalized q.sensors 8 MIN_DIST MAX_DIST
    rw [h3, h4]

/-- C9 witness: two states agreeing on every core input but differing in the
event trace and the animation guard produce the same combined damage flag. -/
theorem C9_damage_motivation_deterministic_witness :
    coreEq init { init with events := [Event.stopCmd], secure_led := true } ∧
    (check_if_damage init).2
      = (check_if_damage { init with events := [Event.stopCmd], secure_led := true }).2 :=
  ⟨by decide,
   (C9_damage_motivation_deterministic init
     { init with events := [Event.stopCmd], secure_led := true } (by decide)).1⟩
